import Mathlib

/-
Shallow embedding of the workflow/validation core of the bichitras-qms
repository: the testing pipeline state machine (apps/testing/models.py,
apps/testing/views.py), the specification validator
(apps/quality/models.py) and the result evaluator (apps/testing/models.py).
Python strings are Lean String, Python ints are Lean Int, Django model
instances are Lean structures carrying the fields the embedded methods
read or write; persistence (Model.save) is modelled as returning the
updated record.
-/

namespace QMS

/-- State of a TestRequest row: the fields read/written by the embedded
methods (apps/testing/models.py, class TestRequest). `status` is one of
the STATUS_CHOICES strings, `current_step` the pipeline step. -/
structure TestRequest where
  status : String
  current_step : Int
  deriving DecidableEq, Repr

/-- TestRequest.can_proceed_to_next_step (models.py lines 109-120). -/
def can_proceed_to_next_step (t : TestRequest) : Bool :=
  if t.status = "Rejected" then false
  else if t.current_step ≥ 4 then false
  else true

/-- TestRequest.advance_step (models.py lines 122-137).  The Django
`self.save(...)` call persists the mutated fields; here the mutated
record is returned together with the method's boolean result. -/
def advance_step (t : TestRequest) : TestRequest × Bool :=
  if can_proceed_to_next_step t then
    let step := t.current_step + 1
    ({ t with
        current_step := step,
        status := if step = 4 then "Completed" else "In-Progress" }, true)
  else (t, false)

/-- TestRequest.get_progress_percentage (models.py lines 87-107).
The Python expression `int((self.current_step / 4) * 100)` computes in
float arithmetic; for any int step of DB magnitude, step/4*100 is the
exact float step*25, and `int` truncates toward zero, so the branch
equals truncated division of step*100 by 4 (which is exact as well). -/
def get_progress_percentage (t : TestRequest) : Int :=
  if t.status = "Approved" ∨ (t.status = "Completed" ∧ t.current_step = 4) then 100
  else if t.status = "Submitted for Review" then 75
  else if t.current_step = 4 then 100
  else Int.tdiv (t.current_step * 100) 4

/-
Model of Python decimal.Decimal as used by ProductSpecification
validation (apps/quality/models.py).  A Decimal is a finite triple
(sign, coefficient, exponent) or an infinity or a NaN.  Decimal(str)
follows the numeric-string grammar of the decimal specification after
stripping surrounding whitespace and removing underscores; a string
that does not conform raises decimal.InvalidOperation, which is NOT a
subclass of ValueError or TypeError.  Ordering comparisons raise
InvalidOperation when either operand is a NaN.
-/

/-- Python exceptions that the embedded code can raise or catch. -/
inductive PyExc
  | valueError
  | typeError
  | invalidOperation
  deriving DecidableEq, Repr

instance {ε α : Type} [DecidableEq ε] [DecidableEq α] : DecidableEq (Except ε α) := fun x y =>
  match x, y with
  | Except.error a, Except.error b =>
    if h : a = b then isTrue (by rw [h]) else isFalse (fun hc => h (by injection hc))
  | Except.ok a, Except.ok b =>
    if h : a = b then isTrue (by rw [h]) else isFalse (fun hc => h (by injection hc))
  | Except.error _, Except.ok _ => isFalse (fun hc => Except.noConfusion hc)
  | Except.ok _, Except.error _ => isFalse (fun hc => Except.noConfusion hc)

/-- A finite Decimal value: (-1)^sign * coeff * 10^exp. -/
structure DecFin where
  sign : Bool
  coeff : Nat
  exp : Int
  deriving DecidableEq, Repr

/-- A Python Decimal object. -/
inductive PyDec
  | fin (d : DecFin)
  | inf (sign : Bool)
  | nan (signaling : Bool)
  deriving DecidableEq, Repr

/-- 10^e over the rationals for an integer e. -/
def powTen (e : Int) : ℚ :=
  if 0 ≤ e then ((10 : ℚ) ^ e.toNat) else ((10 : ℚ) ^ (-e).toNat)⁻¹

/-- Numeric value of a finite Decimal. -/
def DecFin.toRat (d : DecFin) : ℚ :=
  (if d.sign then -1 else 1) * (d.coeff : ℚ) * powTen d.exp

/-- Decimal value of a list of ASCII digit characters. -/
def digitsVal (l : List Char) : Nat :=
  l.foldl (fun a c => a * 10 + (c.toNat - 48)) 0

/-- Split a leading run of digits off a character list. -/
def splitDigits (s : List Char) : List Char × List Char :=
  (s.takeWhile Char.isDigit, s.dropWhile Char.isDigit)

/-- Consume an optional leading sign; returns (isNegative, rest). -/
def parseSign : List Char → Bool × List Char
  | '-' :: rest => (true, rest)
  | '+' :: rest => (false, rest)
  | s => (false, s)

/-- Parse the exponent part after the indicator: [sign] digits.
`coeff` and `fexp` are the coefficient and fractional exponent already
accumulated. -/
def parseExpPart (coeff : Nat) (fexp : Int) (s : List Char) :
    Option (Nat × Int) :=
  let (esign, s2) := parseSign s
  let (ed, rest) := splitDigits s2
  if ed = [] ∨ rest ≠ [] then none
  else
    let e : Int := (digitsVal ed : Int)
    some (coeff, fexp + (if esign then -e else e))

/-- Parse a numeric-value (decimal-part with optional exponent-part)
into (coefficient, exponent); none when the string does not conform. -/
def parseNumericValue (s : List Char) : Option (Nat × Int) :=
  let (ip, rest) := splitDigits s
  match rest with
  | [] => if ip = [] then none else some (digitsVal ip, 0)
  | '.' :: rest2 =>
    let (fp, rest3) := splitDigits rest2
    if ip = [] ∧ fp = [] then none
    else
      match rest3 with
      | [] => some (digitsVal (ip ++ fp), -(fp.length : Int))
      | e :: rest4 =>
        if e = 'e' ∨ e = 'E' then
          parseExpPart (digitsVal (ip ++ fp)) (-(fp.length : Int)) rest4
        else none
  | e :: rest2 =>
    if (e = 'e' ∨ e = 'E') ∧ ip ≠ [] then
      parseExpPart (digitsVal ip) 0 rest2
    else none

/-- Strip leading and trailing whitespace from a character list. -/
def stripWs (s : List Char) : List Char :=
  ((s.dropWhile Char.isWhitespace).reverse.dropWhile Char.isWhitespace).reverse

/-- Decimal(str(x)) on a Python string: ok with the parsed Decimal, or
error decimal.InvalidOperation on a malformed numeric string. -/
def pyDecimalParse (s : String) : Except PyExc PyDec :=
  let cs := (stripWs s.data).filter (fun c => c ≠ '_')
  let (sgn, body) := parseSign cs
  let low := body.map Char.toLower
  if low = [ 'i', 'n', 'f'] ∨ low = [ 'i', 'n', 'f', 'i', 'n', 'i', 't', 'y'] then
    Except.ok (PyDec.inf sgn)
  else if low.take 3 = [ 'n', 'a', 'n'] ∧ (low.drop 3).all Char.isDigit then
    Except.ok (PyDec.nan false)
  else if low.take 4 = [ 's', 'n', 'a', 'n'] ∧ (low.drop 4).all Char.isDigit then
    Except.ok (PyDec.nan true)
  else
    match parseNumericValue body with
    | some (c, e) => Except.ok (PyDec.fin ⟨sgn, c, e⟩)
    | none => Except.error PyExc.invalidOperation

/-- Decimal ordering `a < b`: raises InvalidOperation when either side
is a NaN (Python ordering comparisons signal on NaN operands). -/
def pyDecLt : PyDec → PyDec → Except PyExc Bool
  | PyDec.nan _, _ => Except.error PyExc.invalidOperation
  | _, PyDec.nan _ => Except.error PyExc.invalidOperation
  | PyDec.inf s1, PyDec.inf s2 => Except.ok (s1 && !s2)
  | PyDec.inf s1, PyDec.fin _ => Except.ok s1
  | PyDec.fin _, PyDec.inf s2 => Except.ok (!s2)
  | PyDec.fin a, PyDec.fin b => Except.ok (decide (a.toRat < b.toRat))

/-- Decimal ordering `a > b`. -/
def pyDecGt (a b : PyDec) : Except PyExc Bool := pyDecLt b a

/-- str() of a finite Decimal: the to-scientific-string conversion of
the decimal specification. -/
def decFinStr (d : DecFin) : String :=
  let ds := Nat.repr d.coeff
  let n : Int := (ds.length : Int) + d.exp
  let adjusted : Int := d.exp + (ds.length : Int) - 1
  let body :=
    if d.exp ≤ 0 ∧ -6 ≤ adjusted then
      if d.exp = 0 then ds
      else if 0 < n then
        (ds.data.take n.toNat).asString ++ "." ++ (ds.data.drop n.toNat).asString
      else "0." ++ (List.replicate (-n).toNat '0').asString ++ ds
    else
      let mant :=
        if ds.length = 1 then ds
        else (ds.data.take 1).asString ++ "." ++ (ds.data.drop 1).asString
      mant ++ "E" ++
        (if 0 ≤ adjusted then "+" ++ Nat.repr adjusted.toNat
         else "-" ++ Nat.repr (-adjusted).toNat)
  (if d.sign then "-" else "") ++ body

/-- str() of a Decimal. -/
def pyDecStr : PyDec → String
  | PyDec.fin d => decFinStr d
  | PyDec.inf s => (if s then "-" else "") ++ "Infinity"
  | PyDec.nan sg => if sg then "sNaN" else "NaN"

/-- A TestParameter row: the embedded code reads only data_type
(apps/quality/models.py, class TestParameter). -/
structure TestParameter where
  data_type : String
  deriving DecidableEq, Repr

/-- A ProductSpecification row: the fields validate_value reads
(apps/quality/models.py, class ProductSpecification).  min_value and
max_value are nullable DecimalField columns, hence finite decimals;
standard_text_value is a blank-able CharField where "" means unset. -/
structure ProductSpecification where
  parameter : TestParameter
  min_value : Option DecFin
  max_value : Option DecFin
  standard_text_value : String
  deriving DecidableEq, Repr

/-- The max_value comparison half of the Numeric branch of
validate_value: `if self.max_value is not None and value > self.max_value`. -/
def checkMaxValue (s : ProductSpecification) (value : PyDec) :
    Except PyExc (Bool × Option String) :=
  match s.max_value with
  | some mx =>
    match pyDecGt value (PyDec.fin mx) with
    | Except.error e => Except.error e
    | Except.ok true =>
      Except.ok (false, some ("Value " ++ pyDecStr value ++
        " is above maximum " ++ decFinStr mx))
    | Except.ok false => Except.ok (true, none)
  | none => Except.ok (true, none)

/-- Body of the `try` block in the Numeric branch of validate_value
(quality/models.py lines 215-221): parse, compare to min, compare to
max; any exception propagates to the except clause. -/
def numericTryBody (s : ProductSpecification) (actual_value : String) :
    Except PyExc (Bool × Option String) :=
  match pyDecimalParse actual_value with
  | Except.error e => Except.error e
  | Except.ok value =>
    match s.min_value with
    | some mn =>
      match pyDecLt value (PyDec.fin mn) with
      | Except.error e => Except.error e
      | Except.ok true =>
        Except.ok (false, some ("Value " ++ pyDecStr value ++
          " is below minimum " ++ decFinStr mn))
      | Except.ok false => checkMaxValue s value
    | none => checkMaxValue s value

/-- Which exceptions the `except (ValueError, TypeError)` clause of the
Numeric branch catches. -/
def caughtByNumericExcept (e : PyExc) : Bool :=
  e = PyExc.valueError ∨ e = PyExc.typeError

/-- Python str.strip(): surrounding whitespace removed. -/
def pyStrip (x : String) : String :=
  (stripWs x.data).asString

/-- Python str.lower(): characters lowercased. -/
def pyLower (x : String) : String :=
  (x.data.map Char.toLower).asString

/-- Truthy-token interpretation used by the Boolean branch:
`x.strip().lower() in ['true', 'yes', '1', 'pass']`. -/
def truthyToken (x : String) : Bool :=
  ([ "true", "yes", "1", "pass"] : List String).contains (pyLower (pyStrip x))

/-- ProductSpecification.validate_value (quality/models.py lines
202-240).  Returns ok (is_valid, error_message), or error e when the
Python method would raise exception e. -/
def validate_value (s : ProductSpecification) (actual_value : String) :
    Except PyExc (Bool × Option String) :=
  if s.parameter.data_type = "Numeric" then
    match numericTryBody s actual_value with
    | Except.error e =>
      if caughtByNumericExcept e then
        Except.ok (false, some ("Invalid numeric value: " ++ actual_value))
      else Except.error e
    | Except.ok r => Except.ok r
  else if s.parameter.data_type = "Text" then
    if s.standard_text_value ≠ "" then
      if pyLower (pyStrip actual_value) ≠ pyLower (pyStrip s.standard_text_value) then
        Except.ok (false, some ("Value \x27" ++ actual_value ++
          "\x27 does not match standard \x27" ++ s.standard_text_value ++ "\x27"))
      else Except.ok (true, none)
    else Except.ok (true, none)
  else if s.parameter.data_type = "Boolean" then
    if s.standard_text_value ≠ "" then
      if truthyToken s.standard_text_value ≠ truthyToken actual_value then
        Except.ok (false, some ("Boolean value mismatch"))
      else Except.ok (true, none)
    else Except.ok (true, none)
  else Except.ok (true, none)

/-- Claim-side notion for C5: the parsed value is strictly below the
bound (numerically; negative infinity is below every bound, a NaN is
not below anything). -/
def specBelow (d : PyDec) (m : DecFin) : Prop :=
  match d with
  | PyDec.fin a => a.toRat < m.toRat
  | PyDec.inf s => s = true
  | PyDec.nan _ => False

/-- Claim-side notion for C5: the parsed value is strictly above the
bound. -/
def specAbove (d : PyDec) (m : DecFin) : Prop :=
  match d with
  | PyDec.fin a => m.toRat < a.toRat
  | PyDec.inf s => s = false
  | PyDec.nan _ => False

/-- The progress function exactly as the spec sentence words it
(spec.md section 4.3): floor(step/4 x 100) in the default branch.
Used only to compare against `get_progress_percentage`. -/
def progress_spec (status : String) (step : Int) : Int :=
  if status = "Approved" ∨ (status = "Completed" ∧ step = 4) then 100
  else if status = "Submitted for Review" then 75
  else if step = 4 then 100
  else Int.floor ((step : ℚ) / 4 * 100)

/-- State of a TestResult row: the fields read/written by
calculate_pass_fail and the overridden save (apps/testing/models.py,
class TestResult).  pass_fail_status is the nullable BooleanField
(True/False/None tri-state); the test_request and parameter foreign
keys are required non-null columns, so the `self.test_request_id and
self.parameter_id` guard in save holds and is not carried in the
state. -/
structure TestResult where
  actual_value : String
  pass_fail_status : Option Bool
  deriving DecidableEq, Repr

mutual

/-- TestResult.calculate_pass_fail (testing/models.py lines 192-230).
`lookup` is the outcome of
`self.test_request.product.specifications.filter(parameter=self.parameter,
is_active=True).first()`.  The method body assigns pass_fail_status and
calls self.save, which is the overridden TestResult.save and may call
calculate_pass_fail again; the mutual recursion is bounded by fuel, and
a `none` result means the call does not terminate (at runtime: unbounded
recursion until RecursionError).  The `except Exception` clause turns
any exception from the specification lookup or from validate_value into
the pass_fail_status=None path. -/
def calculate_pass_fail : Nat → Option ProductSpecification → TestResult →
    Option (TestResult × Bool)
  | 0, _, _ => none
  | fuel+1, lookup, r =>
    match lookup with
    | none =>
      (TestResult_save fuel lookup { r with pass_fail_status := none }).map
        (fun r2 => (r2, false))
    | some spec =>
      match validate_value spec r.actual_value with
      | Except.ok (is_valid, _msg) =>
        (TestResult_save fuel lookup { r with pass_fail_status := some is_valid }).map
          (fun r2 => (r2, is_valid))
      | Except.error _ =>
        (TestResult_save fuel lookup { r with pass_fail_status := none }).map
          (fun r2 => (r2, false))

/-- TestResult.save (testing/models.py lines 232-243): when
pass_fail_status is None and actual_value is non-empty (Python
truthiness of the string), super().save() persists the row and
calculate_pass_fail() is invoked; otherwise super().save() only.
super().save is Django Model.save and leaves the fields unchanged. -/
def TestResult_save : Nat → Option ProductSpecification → TestResult →
    Option TestResult
  | 0, _, _ => none
  | fuel+1, lookup, r =>
    if r.pass_fail_status = none ∧ r.actual_value ≠ "" then
      (calculate_pass_fail fuel lookup r).map (fun p => p.1)
    else some r

end

/-- Derived analysis of the evaluator: the (stored status, returned
bool) that a calculate_pass_fail call settles on when it terminates,
as a function of the specification lookup and the actual value; none
when the call recurses forever (status left None with a non-empty
value re-triggers evaluation from save). -/
def termResult (lookup : Option ProductSpecification) (v : String) :
    Option (Option Bool × Bool) :=
  match lookup with
  | none => if v = "" then some (none, false) else none
  | some spec =>
    match validate_value spec v with
    | Except.ok (is_valid, _msg) => some (some is_valid, is_valid)
    | Except.error _ => if v = "" then some (none, false) else none

/-- The per-parameter POST processing of pipeline step 3
(testing/views.py lines 92-109): get_or_create with the posted value as
default (creation runs the overridden save), or assignment of the
posted value to the existing row followed by save(); then an explicit
calculate_pass_fail().  `existing` is the row found by get_or_create,
`v` the posted value. -/
def process_result_entry (fuel : Nat) (lookup : Option ProductSpecification)
    (existing : Option TestResult) (v : String) : Option (TestResult × Bool) :=
  match existing with
  | none =>
    match TestResult_save fuel lookup ⟨v, none⟩ with
    | none => none
    | some r1 => calculate_pass_fail fuel lookup r1
  | some r0 =>
    match TestResult_save fuel lookup { r0 with actual_value := v } with
    | none => none
    | some r1 => calculate_pass_fail fuel lookup r1

/-- An authenticated user as the testing views see one: role string and
an identity used for the ownership comparison
`test_request.controller_user != request.user`. -/
structure UserS where
  role : String
  uid : Nat
  deriving DecidableEq, Repr

/-- Observable outcome of a view POST: an error message plus redirect,
a 404, a success/warning message plus redirect, or a re-rendered page. -/
inductive Resp
  | permissionError (msg : String)
  | notFound
  | success (msg : String)
  | warning (msg : String)
  | errorMsg (msg : String)
  | render
  deriving DecidableEq, Repr

/-- POST of pipeline step 4 (testing/views.py: controller_required
decorator, the ownership check at lines 47-49, and the step-4 review
branch at lines 137-159).  `owner` is the request's controller_user id.
A TestReviewForm is valid exactly when the posted action is one of
submit/approve/reject, so other actions fall through to re-render. -/
def pipeline_step4_post (u : UserS) (owner : Nat) (tr : TestRequest)
    (action : Option String) : TestRequest × Resp :=
  if ¬(u.role = "CONTROLLER" ∨ u.role = "ADMIN") then
    (tr, Resp.permissionError ("Controller access required."))
  else if u.uid ≠ owner ∧ ¬(u.role = "ADMIN") then
    (tr, Resp.permissionError ("You do not have permission to access this test."))
  else if action = some ("submit") then
    ({ tr with current_step := 4, status := "Submitted for Review" },
      Resp.success ("Test request submitted for review. Progress: 75%"))
  else if action = some ("approve") then
    ({ tr with current_step := 4, status := "Approved" },
      Resp.success ("Test request approved. Progress: 100%"))
  else if action = some ("reject") then
    ({ tr with status := "Rejected" }, Resp.warning ("Test request rejected."))
  else (tr, Resp.render)

/-- TestRequestDetailView.post (testing/views.py lines 231-255) with
the RoleRequiredMixin dispatch (required_roles ADMIN/CONTROLLER) and
the get_queryset restriction that hides foreign requests from
non-admins (a non-admin non-owner gets a 404 from get_object). -/
def detail_view_post (u : UserS) (owner : Nat) (tr : TestRequest)
    (action : Option String) : TestRequest × Resp :=
  if ¬(u.role = "ADMIN" ∨ u.role = "CONTROLLER") then
    (tr, Resp.permissionError ("You do not have permission to access this page."))
  else if ¬(u.role = "ADMIN") ∧ u.uid ≠ owner then (tr, Resp.notFound)
  else if ¬(u.role = "ADMIN") then
    (tr, Resp.permissionError ("Only admins can approve tests."))
  else if tr.status = "Submitted for Review" then
    if action = some ("approve") then
      ({ tr with status := "Approved" }, Resp.success ("Test request approved. Progress: 100%"))
    else if action = some ("reject") then
      ({ tr with status := "Rejected" }, Resp.warning ("Test request rejected."))
    else (tr, Resp.errorMsg ("Invalid action."))
  else (tr, Resp.render)

end QMS

/-- Claim C1: advance_step returns false and leaves current_step and
status unchanged when status is Rejected or current_step is at least 4;
otherwise it increments current_step by one, sets status to Completed
exactly when the new step is 4 and to In-Progress otherwise, and
returns true. -/
theorem QMS.advance_step_spec (t : QMS.TestRequest) :
    QMS.advance_step t =
      if t.status = "Rejected" ∨ t.current_step ≥ 4 then (t, false)
      else ({ status := if t.current_step + 1 = 4 then "Completed" else "In-Progress",
              current_step := t.current_step + 1 }, true) := by
  unfold QMS.advance_step QMS.can_proceed_to_next_step
  rcases t with ⟨st, step⟩
  by_cases hR : st = "Rejected" <;> by_cases h4 : step ≥ 4 <;>
    simp [hR, h4]

/-- Claim C1 witness: a concrete non-Rejected request at step 3 advances
to step 4 with status Completed. -/
theorem QMS.advance_step_spec_witness :
    QMS.advance_step ⟨"In-Progress", 3⟩ =
      ({ status := "Completed", current_step := 4 }, true) := by
  have h := QMS.advance_step_spec ⟨"In-Progress", 3⟩
  simpa using h

/-- Claim C2: get_progress_percentage returns 100 for Approved or
(Completed at step 4), else 75 for Submitted for Review, else 100 at
step 4, else floor(step/4 x 100), which is 25, 50, 75 at steps 1, 2, 3. -/
theorem QMS.get_progress_percentage_spec (t : QMS.TestRequest) :
    QMS.get_progress_percentage t = QMS.progress_spec t.status t.current_step ∧
    QMS.get_progress_percentage ⟨t.status, 1⟩ =
      (if t.status = "Approved" ∨ t.status = "Submitted for Review" then
        QMS.get_progress_percentage ⟨t.status, 1⟩ else 25) := by
  constructor
  · unfold QMS.get_progress_percentage QMS.progress_spec
    rcases t with ⟨st, step⟩
    have hfloor : Int.floor ((step : ℚ) / 4 * 100) = step * 25 := by
      have : ((step : ℚ) / 4 * 100) = ((step * 25 : Int) : ℚ) := by
        push_cast
        ring
      rw [this, Int.floor_intCast]
    have htdiv : Int.tdiv (step * 100) 4 = step * 25 := by
      have h : step * 100 = step * 25 * 4 := by ring
      rw [h]
      exact Int.mul_tdiv_cancel _ (by norm_num)
    simp only []
    split_ifs <;> simp_all [htdiv, hfloor]
  · unfold QMS.get_progress_percentage
    by_cases hA : t.status = "Approved" <;>
      by_cases hS : t.status = "Submitted for Review" <;>
        by_cases hC : t.status = "Completed" <;>
          simp_all <;> decide

namespace QMS

/-- Appending to a non-empty string yields a non-empty string. -/
theorem head_append_ne_empty (a b : String) (h : a ≠ "") : a ++ b ≠ "" := by
  intro h0
  apply h
  cases a with
  | mk la =>
    cases b with
    | mk lb =>
      have h1 : la ++ lb = ([] : List Char) := congrArg String.data h0
      have h2 := List.append_eq_nil.mp h1
      rw [h2.1]

/-- For a non-NaN Decimal, comparison against a finite bound returns
normally and decides the claim-side strictly-below relation. -/
theorem pyDecLt_nonNan (d : PyDec) (m : DecFin) (hn : ∀ sg, d ≠ PyDec.nan sg) :
    ∃ b, pyDecLt d (PyDec.fin m) = Except.ok b ∧ (b = true ↔ specBelow d m) := by
  cases d with
  | fin a => exact ⟨_, rfl, by simp [specBelow]⟩
  | inf sg => exact ⟨sg, rfl, by simp [specBelow]⟩
  | nan sg => exact absurd rfl (hn sg)

/-- For a non-NaN Decimal, comparison against a finite bound returns
normally and decides the claim-side strictly-above relation. -/
theorem pyDecGt_nonNan (d : PyDec) (m : DecFin) (hn : ∀ sg, d ≠ PyDec.nan sg) :
    ∃ b, pyDecGt d (PyDec.fin m) = Except.ok b ∧ (b = true ↔ specAbove d m) := by
  cases d with
  | fin a => exact ⟨_, rfl, by simp [specAbove]⟩
  | inf sg => exact ⟨!sg, rfl, by simp [specAbove]⟩
  | nan sg => exact absurd rfl (hn sg)

/-- Characterization of the Numeric try-block on a value that parses to
a non-NaN Decimal: it returns normally, failing exactly on a violated
bound. -/
theorem numericTryBody_nonNan (s : ProductSpecification) (v : String) (d : PyDec)
    (hp : pyDecimalParse v = Except.ok d) (hn : ∀ sg, d ≠ PyDec.nan sg) :
    ∃ b m, numericTryBody s v = Except.ok (b, m) ∧
      (b = false ↔ ((∃ mn, s.min_value = some mn ∧ specBelow d mn) ∨
                    (∃ mx, s.max_value = some mx ∧ specAbove d mx))) := by
  cases hmn : s.min_value with
  | none =>
    cases hmx : s.max_value with
    | none =>
      refine ⟨true, none, ?_, by simp [hmn, hmx]⟩
      simp [numericTryBody, hp, hmn, checkMaxValue, hmx]
    | some mx =>
      obtain ⟨bg, hg, hgi⟩ := pyDecGt_nonNan d mx hn
      cases bg with
      | true =>
        refine ⟨false, some ("Value " ++ pyDecStr d ++ " is above maximum " ++ decFinStr mx), ?_, ?_⟩
        · simp [numericTryBody, hp, hmn, checkMaxValue, hmx, hg]
        · simp [hmn, hmx, hgi.mp rfl]
      | false =>
        refine ⟨true, none, ?_, ?_⟩
        · simp [numericTryBody, hp, hmn, checkMaxValue, hmx, hg]
        · simp [hmn, hmx]
          simpa using hgi
  | some mn =>
    obtain ⟨bl, hl, hli⟩ := pyDecLt_nonNan d mn hn
    cases bl with
    | true =>
      refine ⟨false, some ("Value " ++ pyDecStr d ++ " is below minimum " ++ decFinStr mn), ?_, ?_⟩
      · simp [numericTryBody, hp, hmn, hl]
      · simp [hmn, hli.mp rfl]
    | false =>
      have hnb : ¬ specBelow d mn := by simpa using hli
      cases hmx : s.max_value with
      | none =>
        refine ⟨true, none, ?_, ?_⟩
        · simp [numericTryBody, hp, hmn, hl, checkMaxValue, hmx]
        · simp [hmn, hmx, hnb]
      | some mx =>
        obtain ⟨bg, hg, hgi⟩ := pyDecGt_nonNan d mx hn
        cases bg with
        | true =>
          refine ⟨false, some ("Value " ++ pyDecStr d ++ " is above maximum " ++ decFinStr mx), ?_, ?_⟩
          · simp [numericTryBody, hp, hmn, hl, checkMaxValue, hmx, hg]
          · simp [hmn, hmx, hgi.mp rfl]
        | false =>
          refine ⟨true, none, ?_, ?_⟩
          · simp [numericTryBody, hp, hmn, hl, checkMaxValue, hmx, hg]
          · simp [hmn, hmx, hnb]
            simpa using hgi

/-- Claim C4: for a Numeric-typed specification and an actual value
that does not parse as a decimal, the claim says validate_value returns
(false, "Invalid numeric value ...") without raising.  The code instead
propagates decimal.InvalidOperation: the `except (ValueError, TypeError)`
clause does not catch it, so validate_value raises. -/
theorem validate_value_unparsable_raises (s : ProductSpecification) (v : String)
    (hdt : s.parameter.data_type = "Numeric")
    (hp : pyDecimalParse v = Except.error PyExc.invalidOperation) :
    validate_value s v = Except.error PyExc.invalidOperation := by
  have hb : numericTryBody s v = Except.error PyExc.invalidOperation := by
    simp [numericTryBody, hp]
  simp [validate_value, hdt, hb, caughtByNumericExcept]

/-- Claim C4 witness: a Numeric specification evaluated on the
non-numeric string "abc" raises InvalidOperation. -/
theorem validate_value_unparsable_raises_witness :
    validate_value ⟨⟨"Numeric"⟩, none, none, ""⟩ "abc" =
      Except.error PyExc.invalidOperation :=
  validate_value_unparsable_raises ⟨⟨"Numeric"⟩, none, none, ""⟩ "abc" rfl (by decide)

/-- Claim C5 counterexample: the string "NaN" parses as a decimal
(Decimal accepts it), yet on a Numeric specification with a minimum
bound validate_value raises InvalidOperation instead of returning a
pass/fail outcome, so the claimed iff does not hold at this input. -/
theorem validate_value_nan_counterexample :
    pyDecimalParse "NaN" = Except.ok (PyDec.nan false) ∧
    validate_value ⟨⟨"Numeric"⟩, some ⟨false, 1, 0⟩, none, ""⟩ "NaN" =
      Except.error PyExc.invalidOperation := by
  constructor
  · rfl
  · rfl

/-- Claim C5 (amended to exclude NaN inputs): for a Numeric-typed
specification and an actual value parsing as a non-NaN decimal,
validate_value returns normally and fails exactly when a configured
minimum is strictly exceeded from below or a configured maximum from
above; equal values pass and an absent bound imposes no constraint. -/
theorem validate_value_numeric_bounds (s : ProductSpecification) (v : String)
    (d : PyDec) (hdt : s.parameter.data_type = "Numeric")
    (hp : pyDecimalParse v = Except.ok d) (hn : ∀ sg, d ≠ PyDec.nan sg) :
    ∃ b m, validate_value s v = Except.ok (b, m) ∧
      (b = false ↔ ((∃ mn, s.min_value = some mn ∧ specBelow d mn) ∨
                    (∃ mx, s.max_value = some mx ∧ specAbove d mx))) := by
  obtain ⟨b, m, hbody, hiff⟩ := numericTryBody_nonNan s v d hp hn
  exact ⟨b, m, by simp [validate_value, hdt, hbody], hiff⟩

/-- Claim C5 witness: with min 10 and max 12, the value "10" (exactly
the minimum) yields a normal return whose failure condition is false. -/
theorem validate_value_numeric_bounds_witness :
    ∃ b m, validate_value ⟨⟨"Numeric"⟩, some ⟨false, 10, 0⟩, some ⟨false, 12, 0⟩, ""⟩ "10" =
        Except.ok (b, m) ∧
      (b = false ↔ ((∃ mn, (some ⟨false, 10, 0⟩ : Option DecFin) = some mn ∧
                      specBelow (PyDec.fin ⟨false, 10, 0⟩) mn) ∨
                    (∃ mx, (some ⟨false, 12, 0⟩ : Option DecFin) = some mx ∧
                      specAbove (PyDec.fin ⟨false, 10, 0⟩) mx))) :=
  validate_value_numeric_bounds ⟨⟨"Numeric"⟩, some ⟨false, 10, 0⟩, some ⟨false, 12, 0⟩, ""⟩
    "10" (PyDec.fin ⟨false, 10, 0⟩) rfl rfl (by decide)

/-- Claim C6: for a Boolean-typed specification, validate_value fails
exactly when a standard value is configured and the truthy-token
interpretations of the standard and actual values differ; with no
standard value it always passes. -/
theorem validate_value_boolean_spec (s : ProductSpecification) (v : String)
    (hdt : s.parameter.data_type = "Boolean") :
    validate_value s v =
      Except.ok
        (if s.standard_text_value ≠ "" ∧ truthyToken s.standard_text_value ≠ truthyToken v
         then (false, some ("Boolean value mismatch"))
         else (true, none)) := by
  unfold validate_value
  rw [hdt]
  by_cases hstd : s.standard_text_value = "" <;>
    by_cases htt : truthyToken s.standard_text_value = truthyToken v <;>
      simp [hstd, htt]

/-- Claim C6 witness: with standard value "Negative" (falsy), the
actual value "Negative" passes while "Pass" (truthy) fails with a
boolean mismatch. -/
theorem validate_value_boolean_spec_witness :
    validate_value ⟨⟨"Boolean"⟩, none, none, "Negative"⟩ "Negative" =
        Except.ok (true, none) ∧
    validate_value ⟨⟨"Boolean"⟩, none, none, "Negative"⟩ "Pass" =
        Except.ok (false, some ("Boolean value mismatch")) := by
  constructor
  · rw [validate_value_boolean_spec ⟨⟨"Boolean"⟩, none, none, "Negative"⟩ "Negative" rfl]
    decide
  · rw [validate_value_boolean_spec ⟨⟨"Boolean"⟩, none, none, "Negative"⟩ "Pass" rfl]
    decide


/-- Every normal return of the max-bound check is either a pass with no
message or a failure with a non-empty message. -/
theorem checkMaxValue_ok_shape (s : ProductSpecification) (value : PyDec)
    (b : Bool) (m : Option String)
    (h : checkMaxValue s value = Except.ok (b, m)) :
    (b = true ∧ m = none) ∨ (b = false ∧ ∃ msg, m = some msg ∧ msg ≠ "") := by
  unfold checkMaxValue at h
  rcases hmx : s.max_value with _ | mx
  · simp only [hmx, Except.ok.injEq, Prod.mk.injEq] at h
    exact Or.inl ⟨h.1.symm, h.2.symm⟩
  · rcases hg : pyDecGt value (PyDec.fin mx) with e | bg
    · simp only [hmx, hg] at h
      exact Except.noConfusion h
    · cases bg
      · simp only [hmx, hg, Except.ok.injEq, Prod.mk.injEq] at h
        exact Or.inl ⟨h.1.symm, h.2.symm⟩
      · simp only [hmx, hg, Except.ok.injEq, Prod.mk.injEq] at h
        exact Or.inr ⟨h.1.symm, _, h.2.symm,
          head_append_ne_empty _ _ (head_append_ne_empty _ _
            (head_append_ne_empty _ _ (by decide)))⟩

/-- Every normal return of the Numeric try-block is either a pass with
no message or a failure with a non-empty message. -/
theorem numericTryBody_ok_shape (s : ProductSpecification) (v : String)
    (b : Bool) (m : Option String)
    (h : numericTryBody s v = Except.ok (b, m)) :
    (b = true ∧ m = none) ∨ (b = false ∧ ∃ msg, m = some msg ∧ msg ≠ "") := by
  unfold numericTryBody at h
  rcases hpv : pyDecimalParse v with e | value
  · simp only [hpv] at h
    exact Except.noConfusion h
  · rcases hmn : s.min_value with _ | mn
    · simp only [hpv, hmn] at h
      exact checkMaxValue_ok_shape s value b m h
    · rcases hl : pyDecLt value (PyDec.fin mn) with e | bl
      · simp only [hpv, hmn, hl] at h
        exact Except.noConfusion h
      · cases bl
        · simp only [hpv, hmn, hl] at h
          exact checkMaxValue_ok_shape s value b m h
        · simp only [hpv, hmn, hl, Except.ok.injEq, Prod.mk.injEq] at h
          exact Or.inr ⟨h.1.symm, _, h.2.symm,
            head_append_ne_empty _ _ (head_append_ne_empty _ _
              (head_append_ne_empty _ _ (by decide)))⟩

/-- Claim C10: on every normal return of validate_value, the message is
none exactly when the passed flag is true, failures carry a non-empty
message, and an unrecognized parameter data type yields (true, none). -/
theorem validate_value_result_shape :
    (∀ (s : ProductSpecification) (v : String) (b : Bool) (m : Option String),
        validate_value s v = Except.ok (b, m) →
        ((m = none ↔ b = true) ∧ (b = false → ∃ msg, m = some msg ∧ msg ≠ ""))) ∧
    (∀ (s : ProductSpecification) (v : String),
        s.parameter.data_type ≠ "Numeric" → s.parameter.data_type ≠ "Text" →
        s.parameter.data_type ≠ "Boolean" →
        validate_value s v = Except.ok (true, none)) := by
  constructor
  · intro s v b m h
    unfold validate_value at h
    by_cases h1 : s.parameter.data_type = "Numeric"
    · rw [if_pos h1] at h
      rcases hnb : numericTryBody s v with e | r
      · simp only [hnb] at h
        by_cases hc : caughtByNumericExcept e = true
        · rw [if_pos hc] at h
          simp only [Except.ok.injEq, Prod.mk.injEq] at h
          obtain ⟨hb, hm⟩ := h
          subst hb; subst hm
          exact ⟨by simp, fun _ => ⟨_, rfl, head_append_ne_empty _ _ (by decide)⟩⟩
        · rw [if_neg hc] at h
          exact Except.noConfusion h
      · rcases r with ⟨b0, m0⟩
        simp only [hnb, Except.ok.injEq, Prod.mk.injEq] at h
        obtain ⟨hb, hm⟩ := h
        subst hb; subst hm
        rcases numericTryBody_ok_shape s v b0 m0 hnb with ⟨hb0, hm0⟩ | ⟨hb0, msg, hm0, hne⟩
        · subst hb0; subst hm0
          exact ⟨by simp, by simp⟩
        · subst hb0; subst hm0
          exact ⟨by simp, fun _ => ⟨msg, rfl, hne⟩⟩
    · rw [if_neg h1] at h
      by_cases h2 : s.parameter.data_type = "Text"
      · rw [if_pos h2] at h
        by_cases hstd : s.standard_text_value ≠ ""
        · rw [if_pos hstd] at h
          by_cases hmm0 : pyLower (pyStrip v) ≠ pyLower (pyStrip s.standard_text_value)
          · rw [if_pos hmm0] at h
            simp only [Except.ok.injEq, Prod.mk.injEq] at h
            obtain ⟨hb, hm⟩ := h
            subst hb; subst hm
            exact ⟨by simp, fun _ => ⟨_, rfl,
              head_append_ne_empty _ _ (head_append_ne_empty _ _
                (head_append_ne_empty _ _ (head_append_ne_empty _ _ (by decide))))⟩⟩
          · rw [if_neg hmm0] at h
            simp only [Except.ok.injEq, Prod.mk.injEq] at h
            obtain ⟨hb, hm⟩ := h
            subst hb; subst hm
            exact ⟨by simp, by simp⟩
        · rw [if_neg hstd] at h
          simp only [Except.ok.injEq, Prod.mk.injEq] at h
          obtain ⟨hb, hm⟩ := h
          subst hb; subst hm
          exact ⟨by simp, by simp⟩
      · rw [if_neg h2] at h
        by_cases h3 : s.parameter.data_type = "Boolean"
        · rw [if_pos h3] at h
          by_cases hstd : s.standard_text_value ≠ ""
          · rw [if_pos hstd] at h
            by_cases htt : truthyToken s.standard_text_value ≠ truthyToken v
            · rw [if_pos htt] at h
              simp only [Except.ok.injEq, Prod.mk.injEq] at h
              obtain ⟨hb, hm⟩ := h
              subst hb; subst hm
              exact ⟨by simp, fun _ => ⟨_, rfl, by decide⟩⟩
            · rw [if_neg htt] at h
              simp only [Except.ok.injEq, Prod.mk.injEq] at h
              obtain ⟨hb, hm⟩ := h
              subst hb; subst hm
              exact ⟨by simp, by simp⟩
          · rw [if_neg hstd] at h
            simp only [Except.ok.injEq, Prod.mk.injEq] at h
            obtain ⟨hb, hm⟩ := h
            subst hb; subst hm
            exact ⟨by simp, by simp⟩
        · rw [if_neg h3] at h
          simp only [Except.ok.injEq, Prod.mk.injEq] at h
          obtain ⟨hb, hm⟩ := h
          subst hb; subst hm
          exact ⟨by simp, by simp⟩
  · intro s v h1 h2 h3
    simp [validate_value, h1, h2, h3]

/-- Claim C10 witness: a specification whose parameter data type is the
unrecognized string "Date" passes any value with no message. -/
theorem validate_value_result_shape_witness :
    validate_value ⟨⟨"Date"⟩, none, none, ""⟩ "anything" = Except.ok (true, none) :=
  validate_value_result_shape.2 ⟨⟨"Date"⟩, none, none, ""⟩ "anything"
    (by decide) (by decide) (by decide)

/-- A terminating evaluation outcome exists for the empty actual value
(the save trigger condition is then false). -/
theorem termResult_empty (lookup : Option ProductSpecification) :
    termResult lookup "" ≠ none := by
  cases lookup with
  | none => simp [termResult]
  | some spec =>
    rcases hvv : validate_value spec "" with e | ⟨bv, mv⟩ <;> simp [termResult, hvv]

/-- When no terminating outcome exists (status left None with a
non-empty value), calculate_pass_fail and the overridden save recurse
into each other and produce no result at any fuel. -/
theorem calc_save_diverge (fuel : Nat) :
    (∀ lookup r, termResult lookup r.actual_value = none →
      calculate_pass_fail fuel lookup r = none) ∧
    (∀ lookup r, r.pass_fail_status = none → termResult lookup r.actual_value = none →
      TestResult_save fuel lookup r = none) := by
  induction fuel with
  | zero => exact ⟨fun _ _ _ => rfl, fun _ _ _ _ => rfl⟩
  | succ n ih =>
    have hvne : ∀ (lookup : Option ProductSpecification) (v : String),
        termResult lookup v = none → v ≠ "" := by
      intro lookup v ht hv
      exact termResult_empty lookup (hv ▸ ht)
    constructor
    · intro lookup r ht
      cases lookup with
      | none =>
        simp only [calculate_pass_fail]
        rw [ih.2 none { r with pass_fail_status := none } rfl ht]
        rfl
      | some spec =>
        rcases hvv : validate_value spec r.actual_value with e | ⟨bv, mv⟩
        · simp only [calculate_pass_fail, hvv]
          rw [ih.2 (some spec) { r with pass_fail_status := none } rfl ht]
          rfl
        · exfalso
          simp [termResult, hvv] at ht
    · intro lookup r hst ht
      have hv := hvne lookup r.actual_value ht
      rw [TestResult_save, if_pos ⟨hst, hv⟩, ih.1 lookup r ht]
      rfl

/-- Characterization of a terminating calculate_pass_fail call: it
needs fuel at least 2, and its result is the termResult outcome written
into the record. -/
theorem calc_some (fuel : Nat) (lookup : Option ProductSpecification)
    (r r2 : TestResult) (b : Bool)
    (h : calculate_pass_fail fuel lookup r = some (r2, b)) :
    2 ≤ fuel ∧ ∃ st, termResult lookup r.actual_value = some (st, b) ∧
      r2 = { r with pass_fail_status := st } := by
  match fuel with
  | 0 => exact absurd h (by simp [calculate_pass_fail])
  | 1 =>
    exfalso
    cases lookup with
    | none => simp [calculate_pass_fail, TestResult_save] at h
    | some spec =>
      rcases hvv : validate_value spec r.actual_value with e | ⟨bv, mv⟩ <;>
        simp [calculate_pass_fail, hvv, TestResult_save] at h
  | (n+2) =>
    cases lookup with
    | none =>
      simp only [calculate_pass_fail] at h
      by_cases hv : r.actual_value = ""
      · rw [TestResult_save, if_neg (by simp [hv])] at h
        simp only [Option.map_some', Option.some.injEq, Prod.mk.injEq] at h
        obtain ⟨hr2, hb⟩ := h
        exact ⟨by omega, none, by simp [termResult, hv, ← hb], hr2.symm⟩
      · exfalso
        have hd := (calc_save_diverge (n+1)).2 none { r with pass_fail_status := none }
          rfl (by simp [termResult, hv])
        rw [hd] at h
        simp at h
    | some spec =>
      rcases hvv : validate_value spec r.actual_value with e | ⟨bv, mv⟩
      · simp only [calculate_pass_fail, hvv] at h
        by_cases hv : r.actual_value = ""
        · rw [TestResult_save, if_neg (by simp [hv])] at h
          simp only [Option.map_some', Option.some.injEq, Prod.mk.injEq] at h
          obtain ⟨hr2, hb⟩ := h
          refine ⟨by omega, none, ?_, hr2.symm⟩
          simp only [termResult, hvv]
          simp [hv, ← hb]
        · exfalso
          have hd := (calc_save_diverge (n+1)).2 (some spec) { r with pass_fail_status := none }
            rfl (by simp [termResult, hvv, hv])
          rw [hd] at h
          simp at h
      · simp only [calculate_pass_fail, hvv] at h
        rw [TestResult_save, if_neg (by simp)] at h
        simp only [Option.map_some', Option.some.injEq, Prod.mk.injEq] at h
        obtain ⟨hr2, hb⟩ := h
        exact ⟨by omega, some bv, by simp [termResult, hvv, ← hb], hr2.symm⟩

/-- With fuel at least 2, a call with a terminating outcome reaches it. -/
theorem calc_term (fuel : Nat) (lookup : Option ProductSpecification)
    (r : TestResult) (st : Option Bool) (b : Bool) (hf : 2 ≤ fuel)
    (ht : termResult lookup r.actual_value = some (st, b)) :
    calculate_pass_fail fuel lookup r = some ({ r with pass_fail_status := st }, b) := by
  obtain ⟨n, rfl⟩ : ∃ n, fuel = n + 2 := ⟨fuel - 2, by omega⟩
  cases lookup with
  | none =>
    have hv : r.actual_value = "" := by
      by_contra hv
      simp [termResult, hv] at ht
    obtain ⟨hst1, hb⟩ : none = st ∧ false = b := by simpa [termResult, hv] using ht
    simp only [calculate_pass_fail]
    rw [TestResult_save, if_neg (by simp [hv])]
    simp [← hst1, ← hb]
  | some spec =>
    rcases hvv : validate_value spec r.actual_value with e | ⟨bv, mv⟩
    · have hv : r.actual_value = "" := by
        by_contra hv
        simp [termResult, hvv, hv] at ht
      obtain ⟨hst1, hb⟩ : none = st ∧ false = b := by
        have h2 := ht
        simp only [termResult, hvv] at h2
        rw [if_pos hv] at h2
        simpa using h2
      simp only [calculate_pass_fail, hvv]
      rw [TestResult_save, if_neg (by simp [hv])]
      simp [← hst1, ← hb]
    · obtain ⟨hst1, hb⟩ : some bv = st ∧ bv = b := by simpa [termResult, hvv] using ht
      simp only [calculate_pass_fail, hvv]
      rw [TestResult_save, if_neg (by simp)]
      simp [← hst1, ← hb]

/-- A terminating save leaves actual_value unchanged. -/
theorem save_value_eq (fuel : Nat) (lookup : Option ProductSpecification)
    (r r1 : TestResult) (h : TestResult_save fuel lookup r = some r1) :
    r1.actual_value = r.actual_value := by
  match fuel with
  | 0 => exact absurd h (by simp [TestResult_save])
  | n+1 =>
    rw [TestResult_save] at h
    by_cases hc : r.pass_fail_status = none ∧ r.actual_value ≠ ""
    · rw [if_pos hc] at h
      rcases hcalc : calculate_pass_fail n lookup r with _ | ⟨r2, b⟩
      · rw [hcalc] at h
        simp at h
      · rw [hcalc] at h
        simp only [Option.map_some', Option.some.injEq] at h
        obtain ⟨_, _, _, hr2⟩ := calc_some n lookup r r2 b hcalc
        rw [← h, hr2]
    · rw [if_neg hc] at h
      simp only [Option.some.injEq] at h
      rw [← h]

/-- Claim C3 (code bug): for a TestResult with a non-empty actual value
whose product has no active specification for its parameter, the claim
says calculate_pass_fail terminates normally with pass_fail_status
stored as None and returns false; instead the method sets status None
and calls save, whose trigger condition (status None, non-empty value)
re-invokes calculate_pass_fail, so the mutual recursion never produces
a result at any fuel. -/
theorem calculate_pass_fail_no_spec_diverges (fuel : Nat) (r : TestResult)
    (hv : r.actual_value ≠ "") :
    calculate_pass_fail fuel none r = none :=
  (calc_save_diverge fuel).1 none r (by simp [termResult, hv])

/-- Claim C3 witness: a result with value "5.0" and no specification
gets no outcome even with ample fuel. -/
theorem calculate_pass_fail_no_spec_diverges_witness :
    calculate_pass_fail 5 none ⟨"5.0", none⟩ = none :=
  calculate_pass_fail_no_spec_diverges 5 ⟨"5.0", none⟩ (by decide)

/-- Claim C7: a terminating calculate_pass_fail run is idempotent:
re-invoking it on the resulting record (same actual value, same
specification lookup) terminates with the same stored status and the
same returned boolean. -/
theorem calculate_pass_fail_idempotent (fuel : Nat)
    (lookup : Option ProductSpecification) (r r2 : TestResult) (b : Bool)
    (h : calculate_pass_fail fuel lookup r = some (r2, b)) :
    calculate_pass_fail fuel lookup r2 = some (r2, b) := by
  obtain ⟨hf, st, ht, hr2⟩ := calc_some fuel lookup r r2 b h
  subst hr2
  have h2 := calc_term fuel lookup { r with pass_fail_status := st } st b hf ht
  simpa using h2

/-- Claim C7 witness: evaluating a Boolean-mismatch result twice keeps
the stored failure and returned false. -/
theorem calculate_pass_fail_idempotent_witness :
    calculate_pass_fail 3 (some ⟨⟨"Boolean"⟩, none, none, "Negative"⟩)
        ⟨"Pass", some false⟩ =
      some (⟨"Pass", some false⟩, false) :=
  calculate_pass_fail_idempotent 3 (some ⟨⟨"Boolean"⟩, none, none, "Negative"⟩)
    ⟨"Pass", none⟩ ⟨"Pass", some false⟩ false (by decide)

/-- Claim C9: after any terminating step-3 result submission, the
stored pass_fail_status is recomputed from the applicable specification
and the posted actual value alone: it equals the derived outcome for
(lookup, v) whatever record (and whatever previously stored status)
existed before, so it is never taken from user input. -/
theorem process_result_entry_derived (fuel : Nat)
    (lookup : Option ProductSpecification) (existing : Option TestResult)
    (v : String) (r : TestResult) (b : Bool)
    (h : process_result_entry fuel lookup existing v = some (r, b)) :
    r.actual_value = v ∧ termResult lookup v = some (r.pass_fail_status, b) := by
  cases existing with
  | none =>
    simp only [process_result_entry] at h
    rcases hs : TestResult_save fuel lookup ⟨v, none⟩ with _ | r1
    · rw [hs] at h
      exact absurd h (by simp)
    · rw [hs] at h
      have hv1 : r1.actual_value = v := save_value_eq fuel lookup ⟨v, none⟩ r1 hs
      obtain ⟨_, st, ht, hr⟩ := calc_some fuel lookup r1 r b h
      subst hr
      rw [hv1] at ht
      exact ⟨hv1, ht⟩
  | some r0 =>
    simp only [process_result_entry] at h
    rcases hs : TestResult_save fuel lookup { r0 with actual_value := v } with _ | r1
    · rw [hs] at h
      exact absurd h (by simp)
    · rw [hs] at h
      have hv1 : r1.actual_value = v :=
        save_value_eq fuel lookup { r0 with actual_value := v } r1 hs
      obtain ⟨_, st, ht, hr⟩ := calc_some fuel lookup r1 r b h
      subst hr
      rw [hv1] at ht
      exact ⟨hv1, ht⟩

/-- Claim C9 witness: an existing row previously stored as passed
(status true) gets status false after the value "Pass" is posted
against a Boolean specification with falsy standard "Negative" -- the
stored status is the derived one, not the prior one. -/
theorem process_result_entry_derived_witness :
    ((⟨"Pass", some false⟩ : TestResult).actual_value = "Pass") ∧
    termResult (some ⟨⟨"Boolean"⟩, none, none, "Negative"⟩) "Pass" =
      some ((⟨"Pass", some false⟩ : TestResult).pass_fail_status, false) :=
  process_result_entry_derived 4 (some ⟨⟨"Boolean"⟩, none, none, "Negative"⟩)
    (some ⟨"x", some true⟩) "Pass" ⟨"Pass", some false⟩ false (by decide)

/-- Claim C8 counterexample: the owning controller (role CONTROLLER,
not ADMIN) posting action=approve to pipeline step 4 of a request whose
status is Completed (not Submitted for Review) flips the status to
Approved -- approval is not exclusively an admin action on a
Submitted-for-Review request. -/
theorem pipeline_step4_controller_approves :
    pipeline_step4_post ⟨"CONTROLLER", 1⟩ 1 ⟨"Completed", 4⟩ (some ("approve")) =
      (⟨"Approved", 4⟩, Resp.success ("Test request approved. Progress: 100%")) ∧
    ("CONTROLLER" : String) ≠ "ADMIN" ∧
    ("Completed" : String) ≠ "Submitted for Review" := by
  refine ⟨?_, by decide, by decide⟩
  decide

/-- Claim C8 (amended): through the detail view, status changes to
Approved/Rejected only for an Admin acting on a Submitted-for-Review
request, a non-admin detail POST never changes state, and the owning
controller's detail POST is rejected with the admin-only permission
error; however, pipeline step 4 also lets the owning controller (or an
admin) set Approved/Rejected via the review actions regardless of the
prior status, while a user without the controller/admin role, or a
non-owning non-admin, is turned away with a permission error and no
state change. -/
theorem approval_transitions :
    (∀ (u : UserS) (owner : Nat) (tr : TestRequest) (act : Option String),
        (detail_view_post u owner tr act).1 ≠ tr →
        (u.role = "ADMIN" ∧ tr.status = "Submitted for Review" ∧
          (act = some ("approve") ∨ act = some ("reject")))) ∧
    (∀ (u : UserS) (owner : Nat) (tr : TestRequest) (act : Option String),
        u.role ≠ "ADMIN" → (detail_view_post u owner tr act).1 = tr) ∧
    (∀ (u : UserS) (owner : Nat) (tr : TestRequest) (act : Option String),
        u.role = "CONTROLLER" → u.uid = owner →
        detail_view_post u owner tr act =
          (tr, Resp.permissionError ("Only admins can approve tests."))) ∧
    (∀ (u : UserS) (owner : Nat) (tr : TestRequest) (act : Option String),
        (pipeline_step4_post u owner tr act).1 ≠ tr →
        ((u.role = "CONTROLLER" ∨ u.role = "ADMIN") ∧
          (u.uid = owner ∨ u.role = "ADMIN") ∧
          (act = some ("submit") ∨ act = some ("approve") ∨ act = some ("reject")))) ∧
    (∀ (u : UserS) (owner : Nat) (tr : TestRequest) (act : Option String),
        ¬(u.role = "CONTROLLER" ∨ u.role = "ADMIN") ∨
          (u.uid ≠ owner ∧ u.role ≠ "ADMIN") →
        (pipeline_step4_post u owner tr act).1 = tr ∧
          ∃ msg, (pipeline_step4_post u owner tr act).2 = Resp.permissionError msg) := by
  refine ⟨?_, ?_, ?_, ?_, ?_⟩
  · intro u owner tr act h
    unfold detail_view_post at h
    split_ifs at h with h1 h2 h3 h4 h5 h6 <;> simp_all
  · intro u owner tr act h
    unfold detail_view_post
    split_ifs with h1 h2 <;> simp_all
  · intro u owner tr act hrole hown
    unfold detail_view_post
    split_ifs with h1 h2 h3 <;> simp_all
  · intro u owner tr act h
    unfold pipeline_step4_post at h
    split_ifs at h with h1 h2 h3 h4 h5 <;> simp_all <;> tauto
  · intro u owner tr act h
    unfold pipeline_step4_post
    split_ifs with h1 h2 <;> simp_all

/-- Claim C8 witness: the owning controller's approve attempt in the
detail view is rejected with the admin-only permission error and the
Submitted-for-Review request is left unchanged. -/
theorem approval_transitions_witness :
    detail_view_post ⟨"CONTROLLER", 7⟩ 7 ⟨"Submitted for Review", 4⟩ (some ("approve")) =
      (⟨"Submitted for Review", 4⟩,
        Resp.permissionError ("Only admins can approve tests.")) :=
  approval_transitions.2.2.1 ⟨"CONTROLLER", 7⟩ 7 ⟨"Submitted for Review", 4⟩
    (some ("approve")) rfl rfl
